import Mathlib

/-!
Fuzzy-Setup, the native greeting stub.

A shallow embedding of `app/src/main/cpp/native-lib.cpp`:

```
extern "C" JNIEXPORT jstring JNICALL
Java_ir_sinapp_fuzzy_MainActivity_stringFromJNI(JNIEnv *env, jobject /* this */) {
    std::string hello = "Hello from C++";
    return env->NewStringUTF(hello.c_str());
}
```

Bytes (C++ `char`) are natural numbers below 256.  A `const char*` is modelled by the
contents of the buffer it points to, terminator included.  The host (the Java virtual
machine behind `JNIEnv`) is explicit state of an arbitrary type `σ`; the JNI function
table is a parameter, because `jni.h` and the virtual machine are not part of the
repository.  The construction of the 14-character `std::string` is modelled as total
(it fits the small-string buffer of the C++ runtime, so it does not allocate).
-/

namespace FuzzySetup

/-! ## C strings and `std::string` -/

/-- The array denoted by the string literal `"Hello from C++"`: the UTF-8 encoding of its
characters followed by the terminating NUL. -/
def hello_literal : List Nat :=
  ("Hello from C++".data.flatMap String.utf8EncodeChar).map UInt8.toNat ++ [0]

/-- The bytes a reader of a C string sees: everything before the first NUL. -/
def c_string (p : List Nat) : List Nat :=
  p.takeWhile (fun b => b ≠ 0)

/-- The C library function `strlen`: number of bytes before the first NUL. -/
def strlen (p : List Nat) : Nat :=
  (c_string p).length

end FuzzySetup

namespace std

/-- The C++ class `std::string`, as its character sequence (terminator excluded). -/
structure string where
  /-- The characters held by the string. -/
  bytes : List Nat
deriving DecidableEq, Repr

/-- The converting constructor `std::string(const char* s)`: copies the `strlen(s)` bytes
before the first NUL of the buffer. -/
def string.ofCStr (p : List Nat) : string :=
  ⟨p.take (FuzzySetup.strlen p)⟩

/-- The member `std::string::size`. -/
def string.size (s : string) : Nat :=
  s.bytes.length

/-- The member `std::string::c_str`: the buffer of the string, NUL-terminated. -/
def string.c_str (s : string) : List Nat :=
  s.bytes ++ [0]

end std

namespace FuzzySetup

/-! ## The JNI boundary -/

/-- A JNI reference `jobject`: the null reference or a handle to a host object. -/
inductive jobject where
  | null : jobject
  | ref (id : Nat) : jobject
deriving DecidableEq, Repr

/-- In `jni.h`, `jstring` is a `jobject` that refers to a `java.lang.String`. -/
abbrev jstring := jobject

/-- The part of the JNI function table `JNIEnv` that matters here, over a host state `σ`.
Every entry is a parameter: the native code can only act on the host through them.
Besides `NewStringUTF` the table lists the entries with which native code could clear or
raise a pending exception, or free or retain a reference. -/
structure JNIEnv (σ : Type) where
  /-- The entry `jstring NewStringUTF(const char* bytes)`: the new string, or null on failure. -/
  NewStringUTF : List Nat → σ → jstring × σ
  /-- The entry `void ExceptionClear()`. -/
  ExceptionClear : σ → σ
  /-- The entry `jint Throw(jthrowable obj)`. -/
  Throw : jobject → σ → σ
  /-- The entry `void DeleteLocalRef(jobject localRef)`. -/
  DeleteLocalRef : jobject → σ → σ
  /-- The entry `jobject NewGlobalRef(jobject obj)`. -/
  NewGlobalRef : jobject → σ → jobject × σ

/-- The string constructed by the first statement, `std::string hello = "Hello from C++";`. -/
def hello : std.string :=
  std.string.ofCStr hello_literal

/-- The exported entry point
`Java_ir_sinapp_fuzzy_MainActivity_stringFromJNI(JNIEnv *env, jobject /* this */)`:
builds `hello` and returns `env->NewStringUTF(hello.c_str())`.  The result is the returned
reference and the host state left behind. -/
def Java_ir_sinapp_fuzzy_MainActivity_stringFromJNI {σ : Type}
    (env : JNIEnv σ) (_this : jobject) (s : σ) : jstring × σ :=
  let hello : std.string := std.string.ofCStr hello_literal
  env.NewStringUTF hello.c_str s

/-! ## Observing the calls made through the function table -/

/-- One call through the JNI function table, with its arguments. -/
inductive JNICall where
  | NewStringUTF (bytes : List Nat) : JNICall
  | ExceptionClear : JNICall
  | Throw (obj : jobject) : JNICall
  | DeleteLocalRef (obj : jobject) : JNICall
  | NewGlobalRef (obj : jobject) : JNICall
deriving DecidableEq, Repr

/-- The same function table, recording every call (oldest first) next to the host state. -/
def JNIEnv.traced {σ : Type} (env : JNIEnv σ) : JNIEnv (σ × List JNICall) where
  NewStringUTF := fun b st =>
    ((env.NewStringUTF b st.1).1, ((env.NewStringUTF b st.1).2, st.2 ++ [JNICall.NewStringUTF b]))
  ExceptionClear := fun st => (env.ExceptionClear st.1, st.2 ++ [JNICall.ExceptionClear])
  Throw := fun o st => (env.Throw o st.1, st.2 ++ [JNICall.Throw o])
  DeleteLocalRef := fun o st => (env.DeleteLocalRef o st.1, st.2 ++ [JNICall.DeleteLocalRef o])
  NewGlobalRef := fun o st =>
    ((env.NewGlobalRef o st.1).1, ((env.NewGlobalRef o st.1).2, st.2 ++ [JNICall.NewGlobalRef o]))

/-- A session: successive invocations of the entry point, each with its own environment
handle and calling object, threaded through the host state.  For every invocation the
returned reference is listed with the host state right after the call. -/
def session {σ : Type} : List (JNIEnv σ × jobject) → σ → List (jstring × σ)
  | [], _ => []
  | c :: rest, s =>
    Java_ir_sinapp_fuzzy_MainActivity_stringFromJNI c.1 c.2 s ::
      session rest (Java_ir_sinapp_fuzzy_MainActivity_stringFromJNI c.1 c.2 s).2

/-! ## Encodings -/

/-- Continuation byte `10xxxxxx`. -/
def isCont (b : Nat) : Bool :=
  decide (0x80 ≤ b ∧ b ≤ 0xBF)

/-- Well-formed standard UTF-8 (RFC 3629; Unicode table 3-7): shortest forms only, no
surrogates, nothing above U+10FFFF. -/
def validUTF8 : List Nat → Bool
  | [] => true
  | b0 :: rest =>
    if b0 ≤ 0x7F then validUTF8 rest
    else match rest with
      | [] => false
      | b1 :: rest1 =>
        if 0xC2 ≤ b0 ∧ b0 ≤ 0xDF then isCont b1 && validUTF8 rest1
        else match rest1 with
          | [] => false
          | b2 :: rest2 =>
            if b0 = 0xE0 then decide (0xA0 ≤ b1 ∧ b1 ≤ 0xBF) && isCont b2 && validUTF8 rest2
            else if b0 = 0xED then decide (0x80 ≤ b1 ∧ b1 ≤ 0x9F) && isCont b2 && validUTF8 rest2
            else if 0xE1 ≤ b0 ∧ b0 ≤ 0xEF then isCont b1 && isCont b2 && validUTF8 rest2
            else match rest2 with
              | [] => false
              | b3 :: rest3 =>
                if b0 = 0xF0 then
                  decide (0x90 ≤ b1 ∧ b1 ≤ 0xBF) && isCont b2 && isCont b3 && validUTF8 rest3
                else if 0xF1 ≤ b0 ∧ b0 ≤ 0xF3 then
                  isCont b1 && isCont b2 && isCont b3 && validUTF8 rest3
                else if b0 = 0xF4 then
                  decide (0x80 ≤ b1 ∧ b1 ≤ 0x8F) && isCont b2 && isCont b3 && validUTF8 rest3
                else false

/-- Decoder of modified UTF-8, the encoding `NewStringUTF` takes (JNI specification), into
UTF-16 code units: one byte for U+0001..U+007F, two bytes for U+0000 and U+0080..U+07FF,
three bytes for U+0800..U+FFFF (surrogates included); no NUL byte and no four-byte form.
`none` when the bytes are not modified UTF-8. -/
def decodeMUTF8 : List Nat → Option (List Nat)
  | [] => some []
  | b0 :: rest =>
    if 1 ≤ b0 ∧ b0 ≤ 0x7F then (decodeMUTF8 rest).map (fun us => b0 :: us)
    else match rest with
      | [] => none
      | b1 :: rest1 =>
        if 0xC0 ≤ b0 ∧ b0 ≤ 0xDF then
          if isCont b1 ∧ ((b0 % 0x20) * 0x40 + b1 % 0x40 = 0 ∨ 0x80 ≤ (b0 % 0x20) * 0x40 + b1 % 0x40)
          then (decodeMUTF8 rest1).map (fun us => ((b0 % 0x20) * 0x40 + b1 % 0x40) :: us)
          else none
        else match rest1 with
          | [] => none
          | b2 :: rest2 =>
            if 0xE0 ≤ b0 ∧ b0 ≤ 0xEF ∧ isCont b1 ∧ isCont b2 ∧
                0x800 ≤ (b0 % 0x10) * 0x1000 + (b1 % 0x40) * 0x40 + b2 % 0x40
            then (decodeMUTF8 rest2).map
              (fun us => ((b0 % 0x10) * 0x1000 + (b1 % 0x40) * 0x40 + b2 % 0x40) :: us)
            else none

/-- Well-formed modified UTF-8: the decoder accepts the bytes. -/
def validMUTF8 (bs : List Nat) : Bool :=
  (decodeMUTF8 bs).isSome

/-! ## Hosts -/

/-- The contract of `NewStringUTF` in the JNI specification at one call, on the bytes `b`
in the host state `s`, for a reading `chars` of the host state (the UTF-16 code units of
the string behind a reference): when the C string is well-formed modified UTF-8 and the
result is non-null, the result refers to a string whose characters are the decoding of
the C string.  Nothing is asked when the call fails, nor on bytes that are not modified
UTF-8, where hosts differ. -/
def JNIConformingAt {σ : Type} (chars : σ → jstring → Option (List Nat)) (env : JNIEnv σ)
    (b : List Nat) (s : σ) : Prop :=
  ∀ us : List Nat, decodeMUTF8 (c_string b) = some us →
    (env.NewStringUTF b s).1 ≠ jobject.null →
      chars (env.NewStringUTF b s).2 (env.NewStringUTF b s).1 = some us

/-- The contract of `NewStringUTF` at every call. -/
def JNIConforming {σ : Type} (chars : σ → jstring → Option (List Nat)) (env : JNIEnv σ) : Prop :=
  ∀ (b : List Nat) (s : σ), JNIConformingAt chars env b s

/-- A reference host: a heap of immutable strings with a capacity, a pending-exception
flag, the global references, and state outside the string domain. -/
structure RefHost where
  /-- String objects as UTF-16 code units; `jobject.ref i` is the i-th. -/
  strings : List (List Nat)
  /-- How many string objects the heap can hold. -/
  capacity : Nat
  /-- Whether an exception (such as `OutOfMemoryError`) is pending. -/
  pending : Bool
  /-- Global references handed out. -/
  globals : List jobject
  /-- Everything else the host holds (fields, files, ...). -/
  other : List Nat
deriving DecidableEq, Repr

/-- The reference host allocates while there is room; otherwise, or when the bytes are not
modified UTF-8, `NewStringUTF` returns null and leaves an exception pending. -/
def refEnv : JNIEnv RefHost where
  NewStringUTF := fun b s =>
    match decodeMUTF8 (c_string b) with
    | some us =>
      if s.strings.length < s.capacity then
        (jobject.ref s.strings.length, { s with strings := s.strings ++ [us] })
      else (jobject.null, { s with pending := true })
    | none => (jobject.null, { s with pending := true })
  ExceptionClear := fun s => { s with pending := false }
  Throw := fun _ s => { s with pending := true }
  DeleteLocalRef := fun _ s => s
  NewGlobalRef := fun o s => (o, { s with globals := o :: s.globals })

/-- The characters of the string behind a reference of the reference host. -/
def refChars (s : RefHost) : jstring → Option (List Nat)
  | jobject.null => none
  | jobject.ref i => s.strings.get? i

/-- A reference host with room for `n` strings and nothing allocated. -/
def refHost (n : Nat) : RefHost :=
  { strings := [], capacity := n, pending := false, globals := [], other := [7] }

/-- A lenient host: like the reference host on modified UTF-8, but bytes that are not
modified UTF-8 are not refused; they are stored as they are. -/
def lenientEnv : JNIEnv RefHost :=
  { refEnv with
    NewStringUTF := fun b s =>
      if s.strings.length < s.capacity then
        (jobject.ref s.strings.length,
          { s with strings := s.strings ++ [(decodeMUTF8 (c_string b)).getD (c_string b)] })
      else (jobject.null, { s with pending := true }) }

/-- One invocation of the entry point in a session: the environment handle and calling
object passed, the host state at the call, and what the entry point gave back. -/
structure Invocation (σ : Type) where
  /-- The environment handle passed. -/
  env : JNIEnv σ
  /-- The calling object passed. -/
  caller : jobject
  /-- The host state when the entry point is entered. -/
  before : σ
  /-- The reference returned by the entry point and the host state it left. -/
  outcome : jstring × σ

/-- The invocations of a session in order, each with the host state it started from; the
next invocation starts from the state the previous one left. -/
def sessionLog {σ : Type} : List (JNIEnv σ × jobject) → σ → List (Invocation σ)
  | [], _ => []
  | c :: rest, s =>
    Invocation.mk c.1 c.2 s (Java_ir_sinapp_fuzzy_MainActivity_stringFromJNI c.1 c.2 s) ::
      sessionLog rest (Java_ir_sinapp_fuzzy_MainActivity_stringFromJNI c.1 c.2 s).2

/-- Three invocations, on the reference and the lenient function tables, with different
calling objects. -/
def sampleCalls : List (JNIEnv RefHost × jobject) :=
  [(refEnv, jobject.null), (lenientEnv, jobject.ref 3), (refEnv, jobject.ref 4)]

/-- The value a caller observes for one returned reference: the characters of the string
behind it, `none` for the null reference. -/
def returnedValue {σ : Type} (chars : σ → jstring → Option (List Nat)) (r : jstring × σ) :
    Option (List Nat) :=
  match r.1 with
  | jobject.null => none
  | jobject.ref i => chars r.2 (jobject.ref i)

/-! ## Basic facts -/

theorem hello_c_str :
    hello.c_str =
      [0x48, 0x65, 0x6C, 0x6C, 0x6F, 0x20, 0x66, 0x72, 0x6F, 0x6D, 0x20, 0x43, 0x2B, 0x2B, 0] := by
  decide

theorem stringFromJNI_eq {σ : Type} (env : JNIEnv σ) (o : jobject) (s : σ) :
    Java_ir_sinapp_fuzzy_MainActivity_stringFromJNI env o s = env.NewStringUTF hello.c_str s :=
  rfl

theorem stringFromJNI_traced {σ : Type} (env : JNIEnv σ) (o : jobject) (s : σ)
    (t : List JNICall) :
    Java_ir_sinapp_fuzzy_MainActivity_stringFromJNI env.traced o (s, t) =
      ((env.NewStringUTF hello.c_str s).1,
        ((env.NewStringUTF hello.c_str s).2, t ++ [JNICall.NewStringUTF hello.c_str])) :=
  rfl

theorem decode_hello :
    decodeMUTF8 (c_string hello.c_str) =
      some [0x48, 0x65, 0x6C, 0x6C, 0x6F, 0x20, 0x66, 0x72, 0x6F, 0x6D, 0x20, 0x43, 0x2B, 0x2B] := by
  decide

theorem refEnv_conforming : JNIConforming refChars refEnv := by
  intro b s us hd h
  simp only [refEnv, hd] at h ⊢
  by_cases hc : s.strings.length < s.capacity
  · simp [hc, refChars]
  · simp [hc] at h

theorem lenientEnv_conforming : JNIConforming refChars lenientEnv := by
  intro b s us hd h
  simp only [lenientEnv, hd] at h ⊢
  by_cases hc : s.strings.length < s.capacity
  · simp [hc, refChars]
  · simp [hc] at h

theorem refEnv_frame (b : List Nat) (s : RefHost) :
    ((refEnv.NewStringUTF b s).2.globals, (refEnv.NewStringUTF b s).2.other) =
      (s.globals, s.other) := by
  simp only [refEnv]
  cases decodeMUTF8 (c_string b) with
  | none => rfl
  | some us =>
    by_cases hc : s.strings.length < s.capacity
    · simp [hc]
    · simp [hc]

theorem returnedValue_of_success {σ : Type} (chars : σ → jstring → Option (List Nat))
    (env : JNIEnv σ) (o : jobject) (s : σ)
    (hconf : JNIConformingAt chars env hello.c_str s)
    (hok : (env.NewStringUTF hello.c_str s).1 ≠ jobject.null) :
    (Java_ir_sinapp_fuzzy_MainActivity_stringFromJNI env o s).1 ≠ jobject.null ∧
      returnedValue chars (Java_ir_sinapp_fuzzy_MainActivity_stringFromJNI env o s) =
        some [0x48, 0x65, 0x6C, 0x6C, 0x6F, 0x20, 0x66, 0x72, 0x6F, 0x6D, 0x20, 0x43, 0x2B, 0x2B] := by
  have h := hconf _ decode_hello hok
  rw [stringFromJNI_eq]
  refine ⟨hok, ?_⟩
  unfold returnedValue
  cases hr : (env.NewStringUTF hello.c_str s).1 with
  | null => exact absurd hr hok
  | ref i => simpa [hr] using h

theorem sessionLog_values {σ : Type} (chars : σ → jstring → Option (List Nat))
    (calls : List (JNIEnv σ × jobject))
    (hconf : ∀ c ∈ calls, ∀ s : σ, JNIConformingAt chars c.1 hello.c_str s) (s : σ) :
    ∀ v ∈ sessionLog calls s, (v.env.NewStringUTF hello.c_str v.before).1 ≠ jobject.null →
      v.outcome.1 ≠ jobject.null ∧
        returnedValue chars v.outcome =
          some [0x48, 0x65, 0x6C, 0x6C, 0x6F, 0x20, 0x66, 0x72, 0x6F, 0x6D, 0x20, 0x43, 0x2B, 0x2B] := by
  induction calls generalizing s with
  | nil => intro v hv; simp [sessionLog] at hv
  | cons c rest ih =>
    intro v hv hok
    simp only [sessionLog, List.mem_cons] at hv
    rcases hv with rfl | hv
    · exact returnedValue_of_success chars c.1 c.2 s (hconf c (List.mem_cons_self _ _) s) hok
    · exact ih (fun d hd => hconf d (List.mem_cons_of_mem _ hd)) _ v hv hok

theorem sessionLog_calls {σ : Type} (calls : List (JNIEnv σ × jobject)) (s : σ) :
    (sessionLog calls s).map (fun v => (v.env, v.caller)) = calls := by
  induction calls generalizing s with
  | nil => rfl
  | cons c rest ih => simp [sessionLog, ih]

theorem sessionLog_outcomes {σ : Type} (calls : List (JNIEnv σ × jobject)) (s : σ) :
    (sessionLog calls s).map Invocation.outcome = session calls s := by
  induction calls generalizing s with
  | nil => rfl
  | cons c rest ih => simp [sessionLog, session, ih]

theorem sampleCalls_conforming :
    ∀ c ∈ sampleCalls, ∀ s : RefHost, JNIConformingAt refChars c.1 hello.c_str s := by
  intro c hc s
  simp only [sampleCalls, List.mem_cons, List.mem_singleton, List.not_mem_nil, or_false] at hc
  rcases hc with rfl | rfl | rfl
  · exact refEnv_conforming _ s
  · exact lenientEnv_conforming _ s
  · exact refEnv_conforming _ s

/-! ## The claims -/

/-- C1, as stated, fails: on a host with no room left, `NewStringUTF` returns null and the
entry point returns that null reference, so no greeting string is observed. -/
theorem C1_null_when_host_cannot_allocate :
    (Java_ir_sinapp_fuzzy_MainActivity_stringFromJNI refEnv (jobject.ref 1) (refHost 0)).1
        = jobject.null ∧
      returnedValue refChars
        (Java_ir_sinapp_fuzzy_MainActivity_stringFromJNI refEnv (jobject.ref 1) (refHost 0))
        = none := by
  decide

/-- C1, amended: for every environment handle, calling object and host state, if the
host honours the contract of `NewStringUTF` at this call and `NewStringUTF` does not fail
on the greeting, then the returned reference is non-null and the string behind it consists
of the 14 characters `48 65 6C 6C 6F 20 66 72 6F 6D 20 43 2B 2B`, that is
`Hello from C++`. -/
theorem C1_greeting_when_NewStringUTF_succeeds {σ : Type}
    (chars : σ → jstring → Option (List Nat)) (env : JNIEnv σ) (o : jobject) (s : σ)
    (hconf : JNIConformingAt chars env hello.c_str s)
    (hok : (env.NewStringUTF hello.c_str s).1 ≠ jobject.null) :
    (Java_ir_sinapp_fuzzy_MainActivity_stringFromJNI env o s).1 ≠ jobject.null ∧
      chars (Java_ir_sinapp_fuzzy_MainActivity_stringFromJNI env o s).2
          (Java_ir_sinapp_fuzzy_MainActivity_stringFromJNI env o s).1
        = some [0x48, 0x65, 0x6C, 0x6C, 0x6F, 0x20, 0x66, 0x72, 0x6F, 0x6D, 0x20, 0x43, 0x2B, 0x2B] ∧
      [0x48, 0x65, 0x6C, 0x6C, 0x6F, 0x20, 0x66, 0x72, 0x6F, 0x6D, 0x20, 0x43, 0x2B, 0x2B]
        = "Hello from C++".data.map Char.toNat :=
  ⟨hok, hconf _ decode_hello hok, by decide⟩

/-- Witness for C1 amended: the lenient host with room for one string. -/
theorem C1_greeting_when_NewStringUTF_succeeds_witness :
    JNIConformingAt refChars lenientEnv hello.c_str (refHost 1) ∧
      (lenientEnv.NewStringUTF hello.c_str (refHost 1)).1 ≠ jobject.null ∧
      ((Java_ir_sinapp_fuzzy_MainActivity_stringFromJNI lenientEnv jobject.null (refHost 1)).1
          ≠ jobject.null ∧
        refChars
            (Java_ir_sinapp_fuzzy_MainActivity_stringFromJNI lenientEnv jobject.null (refHost 1)).2
            (Java_ir_sinapp_fuzzy_MainActivity_stringFromJNI lenientEnv jobject.null (refHost 1)).1
          = some [0x48, 0x65, 0x6C, 0x6C, 0x6F, 0x20, 0x66, 0x72, 0x6F, 0x6D, 0x20, 0x43, 0x2B, 0x2B] ∧
        [0x48, 0x65, 0x6C, 0x6C, 0x6F, 0x20, 0x66, 0x72, 0x6F, 0x6D, 0x20, 0x43, 0x2B, 0x2B]
          = "Hello from C++".data.map Char.toNat) :=
  ⟨lenientEnv_conforming _ _, by decide,
    C1_greeting_when_NewStringUTF_succeeds refChars lenientEnv jobject.null (refHost 1)
      (lenientEnv_conforming _ _) (by decide)⟩

/-- C2, as stated, fails: in a session of two invocations on a host with room for one
string, the first returns the greeting and the second returns null, so the returned
values are not all equal. -/
theorem C2_session_values_differ :
    ¬ (∀ v ∈ (session [(refEnv, jobject.null), (refEnv, jobject.ref 3)] (refHost 1)).map
              (returnedValue refChars),
        ∀ w ∈ (session [(refEnv, jobject.null), (refEnv, jobject.ref 3)] (refHost 1)).map
              (returnedValue refChars),
          v = w) := by
  decide

/-- C2, amended: in every session of successive invocations (any environment handles, any
calling objects, any starting host state; the hosts honour the contract of `NewStringUTF`
on the greeting), every invocation whose `NewStringUTF` call succeeds returns a non-null
reference to a string with the 14 characters of `Hello from C++`, so all those
invocations return values with equal contents.  The log lists the invocations of the
session in order, with the values the session returned. -/
theorem C2_successful_values_equal {σ : Type}
    (chars : σ → jstring → Option (List Nat)) (calls : List (JNIEnv σ × jobject))
    (hconf : ∀ c ∈ calls, ∀ s : σ, JNIConformingAt chars c.1 hello.c_str s) (s : σ) :
    (sessionLog calls s).map (fun v => (v.env, v.caller)) = calls ∧
      (sessionLog calls s).map Invocation.outcome = session calls s ∧
      (∀ v ∈ sessionLog calls s,
        (v.env.NewStringUTF hello.c_str v.before).1 ≠ jobject.null →
          v.outcome.1 ≠ jobject.null ∧
            returnedValue chars v.outcome =
              some [0x48, 0x65, 0x6C, 0x6C, 0x6F, 0x20, 0x66, 0x72, 0x6F, 0x6D, 0x20, 0x43, 0x2B,
                0x2B]) ∧
      (∀ v1 ∈ sessionLog calls s, ∀ v2 ∈ sessionLog calls s,
        (v1.env.NewStringUTF hello.c_str v1.before).1 ≠ jobject.null →
          (v2.env.NewStringUTF hello.c_str v2.before).1 ≠ jobject.null →
            returnedValue chars v1.outcome = returnedValue chars v2.outcome) := by
  refine ⟨sessionLog_calls calls s, sessionLog_outcomes calls s,
    sessionLog_values chars calls hconf s, ?_⟩
  intro v1 h1 v2 h2 n1 n2
  rw [(sessionLog_values chars calls hconf s v1 h1 n1).2,
    (sessionLog_values chars calls hconf s v2 h2 n2).2]

/-- Witness for C2 amended: three invocations, on the reference and the lenient function
tables, on a host with room for two strings; the first two succeed, the third fails. -/
theorem C2_successful_values_equal_witness :
    (∀ c ∈ sampleCalls, ∀ s : RefHost, JNIConformingAt refChars c.1 hello.c_str s) ∧
      (session sampleCalls (refHost 2)).map (returnedValue refChars)
        = [some [0x48, 0x65, 0x6C, 0x6C, 0x6F, 0x20, 0x66, 0x72, 0x6F, 0x6D, 0x20, 0x43, 0x2B, 0x2B],
            some [0x48, 0x65, 0x6C, 0x6C, 0x6F, 0x20, 0x66, 0x72, 0x6F, 0x6D, 0x20, 0x43, 0x2B, 0x2B],
            none] ∧
      (∀ v ∈ sessionLog sampleCalls (refHost 2),
        (v.env.NewStringUTF hello.c_str v.before).1 ≠ jobject.null →
          v.outcome.1 ≠ jobject.null ∧
            returnedValue refChars v.outcome =
              some [0x48, 0x65, 0x6C, 0x6C, 0x6F, 0x20, 0x66, 0x72, 0x6F, 0x6D, 0x20, 0x43, 0x2B,
                0x2B]) :=
  ⟨sampleCalls_conforming, by decide,
    (C2_successful_values_equal refChars sampleCalls sampleCalls_conforming (refHost 2)).2.2.1⟩

/-- C3: for every environment, calling object and host state, the entry point returns null
exactly when `NewStringUTF` returns null on the greeting, the host state it leaves (the
pending exception included) is the one `NewStringUTF` left, and the only call made through
the function table is that `NewStringUTF` call (no `ExceptionClear`, no `Throw`). -/
theorem C3_null_iff_NewStringUTF_null {σ : Type} (env : JNIEnv σ) (o : jobject) (s : σ) :
    ((Java_ir_sinapp_fuzzy_MainActivity_stringFromJNI env o s).1 = jobject.null ↔
        (env.NewStringUTF hello.c_str s).1 = jobject.null) ∧
      (Java_ir_sinapp_fuzzy_MainActivity_stringFromJNI env o s).2
        = (env.NewStringUTF hello.c_str s).2 ∧
      (Java_ir_sinapp_fuzzy_MainActivity_stringFromJNI env.traced o (s, [])).2.2
        = [JNICall.NewStringUTF hello.c_str] ∧
      JNICall.ExceptionClear ∉
        (Java_ir_sinapp_fuzzy_MainActivity_stringFromJNI env.traced o (s, [])).2.2 ∧
      (∀ e : jobject, JNICall.Throw e ∉
        (Java_ir_sinapp_fuzzy_MainActivity_stringFromJNI env.traced o (s, [])).2.2) := by
  rw [stringFromJNI_traced, stringFromJNI_eq]
  refine ⟨Iff.rfl, rfl, rfl, ?_, ?_⟩
  · simp
  · intro e; simp

/-- C4: one invocation makes exactly one call through the function table, a single
`NewStringUTF`; recording the calls changes neither result nor host state; the host state
left is the one `NewStringUTF` left, so every reading of the host state that
`NewStringUTF` preserves is unchanged by the invocation; and a following invocation is
again just `NewStringUTF` on the host state at that time (nothing is carried over on the
native side). -/
theorem C4_single_host_call_and_frame {σ β : Type} (env : JNIEnv σ) (obs : σ → β)
    (hframe : ∀ (b : List Nat) (s : σ), obs (env.NewStringUTF b s).2 = obs s)
    (o o2 : jobject) (s : σ) :
    (Java_ir_sinapp_fuzzy_MainActivity_stringFromJNI env.traced o (s, [])).2.2
        = [JNICall.NewStringUTF hello.c_str] ∧
      (Java_ir_sinapp_fuzzy_MainActivity_stringFromJNI env.traced o (s, [])).1
        = (Java_ir_sinapp_fuzzy_MainActivity_stringFromJNI env o s).1 ∧
      (Java_ir_sinapp_fuzzy_MainActivity_stringFromJNI env.traced o (s, [])).2.1
        = (Java_ir_sinapp_fuzzy_MainActivity_stringFromJNI env o s).2 ∧
      (Java_ir_sinapp_fuzzy_MainActivity_stringFromJNI env o s).2
        = (env.NewStringUTF hello.c_str s).2 ∧
      obs (Java_ir_sinapp_fuzzy_MainActivity_stringFromJNI env o s).2 = obs s ∧
      Java_ir_sinapp_fuzzy_MainActivity_stringFromJNI env o2
          (Java_ir_sinapp_fuzzy_MainActivity_stringFromJNI env o s).2
        = env.NewStringUTF hello.c_str (env.NewStringUTF hello.c_str s).2 := by
  rw [stringFromJNI_traced, stringFromJNI_eq, stringFromJNI_eq]
  exact ⟨rfl, rfl, rfl, rfl, hframe hello.c_str s, rfl⟩

/-- Witness for C4: the reference host, read at its global references and at the state
outside the string domain. -/
theorem C4_single_host_call_and_frame_witness :
    (∀ (b : List Nat) (s : RefHost),
        ((refEnv.NewStringUTF b s).2.globals, (refEnv.NewStringUTF b s).2.other)
          = (s.globals, s.other)) ∧
      (refHost 1).other = [7] ∧
      (Java_ir_sinapp_fuzzy_MainActivity_stringFromJNI refEnv.traced (jobject.ref 2)
            (refHost 1, [])).2.2
        = [JNICall.NewStringUTF hello.c_str] ∧
      ((Java_ir_sinapp_fuzzy_MainActivity_stringFromJNI refEnv (jobject.ref 2) (refHost 1)).2.globals,
          (Java_ir_sinapp_fuzzy_MainActivity_stringFromJNI refEnv (jobject.ref 2) (refHost 1)).2.other)
        = ((refHost 1).globals, (refHost 1).other) :=
  ⟨refEnv_frame, rfl,
    (C4_single_host_call_and_frame refEnv (fun s => (s.globals, s.other)) refEnv_frame
      (jobject.ref 2) jobject.null (refHost 1)).1,
    (C4_single_host_call_and_frame refEnv (fun s => (s.globals, s.other)) refEnv_frame
      (jobject.ref 2) jobject.null (refHost 1)).2.2.2.2.1⟩

/-- C5: the result and the host state left do not depend on the calling object, nor on any
entry of the environment other than `NewStringUTF`; and whatever the environment, calling
object and host state, the one call made is `NewStringUTF` on the same constant bytes. -/
theorem C5_arguments_unused {σ : Type} (env : JNIEnv σ) (o1 o2 : jobject) (s : σ)
    (fClear : σ → σ) (fThrow : jobject → σ → σ) (fDelete : jobject → σ → σ)
    (fRetain : jobject → σ → jobject × σ) :
    Java_ir_sinapp_fuzzy_MainActivity_stringFromJNI env o1 s
        = Java_ir_sinapp_fuzzy_MainActivity_stringFromJNI env o2 s ∧
      Java_ir_sinapp_fuzzy_MainActivity_stringFromJNI env o1 s
        = Java_ir_sinapp_fuzzy_MainActivity_stringFromJNI
            (JNIEnv.mk env.NewStringUTF fClear fThrow fDelete fRetain) o2 s ∧
      (Java_ir_sinapp_fuzzy_MainActivity_stringFromJNI env.traced o1 (s, [])).2.2
        = [JNICall.NewStringUTF
            [0x48, 0x65, 0x6C, 0x6C, 0x6F, 0x20, 0x66, 0x72, 0x6F, 0x6D, 0x20, 0x43, 0x2B, 0x2B, 0]] := by
  rw [stringFromJNI_traced, ← hello_c_str]
  exact ⟨rfl, rfl, rfl⟩

/-- C7: the entry point is `NewStringUTF` applied to the NUL-terminated bytes
`48 65 6C 6C 6F 20 66 72 6F 6D 20 43 2B 2B 00` of the 14-byte literal: reference and host
state are those of that call, and no other call is made through the function table (so
the reference is neither freed with `DeleteLocalRef` nor retained with `NewGlobalRef`). -/
theorem C7_is_NewStringUTF_of_constant {σ : Type} (env : JNIEnv σ) (o : jobject) (s : σ) :
    hello.size = 14 ∧
      hello.c_str
        = [0x48, 0x65, 0x6C, 0x6C, 0x6F, 0x20, 0x66, 0x72, 0x6F, 0x6D, 0x20, 0x43, 0x2B, 0x2B, 0] ∧
      Java_ir_sinapp_fuzzy_MainActivity_stringFromJNI env o s
        = env.NewStringUTF
            [0x48, 0x65, 0x6C, 0x6C, 0x6F, 0x20, 0x66, 0x72, 0x6F, 0x6D, 0x20, 0x43, 0x2B, 0x2B, 0] s ∧
      Java_ir_sinapp_fuzzy_MainActivity_stringFromJNI env.traced o (s, [])
        = ((env.NewStringUTF
              [0x48, 0x65, 0x6C, 0x6C, 0x6F, 0x20, 0x66, 0x72, 0x6F, 0x6D, 0x20, 0x43, 0x2B, 0x2B, 0]
              s).1,
            (env.NewStringUTF
              [0x48, 0x65, 0x6C, 0x6C, 0x6F, 0x20, 0x66, 0x72, 0x6F, 0x6D, 0x20, 0x43, 0x2B, 0x2B, 0]
              s).2,
            [JNICall.NewStringUTF
              [0x48, 0x65, 0x6C, 0x6C, 0x6F, 0x20, 0x66, 0x72, 0x6F, 0x6D, 0x20, 0x43, 0x2B, 0x2B, 0]]) := by
  rw [stringFromJNI_traced, stringFromJNI_eq, ← hello_c_str]
  exact ⟨by decide, rfl, rfl, rfl⟩

/-- C8: the greeting has 14 bytes, each in 0x01..0x7F; reading `c_str()` as a C string
gives back all 14 bytes; the bytes are well-formed standard UTF-8 and well-formed modified
UTF-8; and their modified UTF-8 decoding is the 14 characters of `Hello from C++`. -/
theorem C8_greeting_bytes_ascii :
    hello.size = 14 ∧
      (∀ b ∈ hello.bytes, 0x01 ≤ b ∧ b ≤ 0x7F) ∧
      c_string hello.c_str = hello.bytes ∧
      strlen hello.c_str = 14 ∧
      validUTF8 hello.bytes = true ∧
      validMUTF8 hello.bytes = true ∧
      decodeMUTF8 (c_string hello.c_str) = some ("Hello from C++".data.map Char.toNat) ∧
      ("Hello from C++".data.map Char.toNat).length = 14 := by
  decide

end FuzzySetup
